import Mathlib

/-!
Verification development for the Lynx thermal-cycle controller.

Shallow embedding of the temperature control and settlement engine of
src/core/lynx_thermal_cycle.py and of the profile model of src/core/temp.py.
Temperatures, timestamps and durations are modelled as rationals; machine
integers of the source are modelled as Lean integers.  Each definition below
names the source function or code region it embeds.
-/

namespace LynxTC

/-- Python max(-c, min(c, x)) as used throughout _wait_until_stable for
clamping PID quantities. -/
def clamp (c x : ℚ) : ℚ := max (-c) (min c x)

/-- Maximum of a list of rationals (Python max(vals) on a nonempty list;
0 on the empty list, which the source never reaches). -/
def listMax : List ℚ → ℚ
| [] => 0
| x :: xs => xs.foldl max x

/-- Minimum of a list of rationals (Python min(vals)). -/
def listMin : List ℚ → ℚ
| [] => 0
| x :: xs => xs.foldl min x

/-- Parameters of one _wait_until_stable call (lynx_thermal_cycle.py line 240),
together with the simulation_mode flag of the manager.  window_s and poll_s
are ints as converted by run_thermal_cycle (lines 942-944). -/
structure WaitParams where
  target_c : ℚ
  target_temp_delta_c : ℚ
  tol_c : ℚ
  window_s : ℤ
  poll_s : ℤ
  temp_offset : ℚ
  simulation_mode : Bool
deriving DecidableEq, Repr

/-- base_sp = float(target_c + (temp_offset or 0.0)) (line 246, 258). -/
def baseSp (p : WaitParams) : ℚ := p.target_c + p.temp_offset

/-- Kp (line 251). -/
def kP : ℚ := 1/10
/-- Ki (line 251). -/
def kI : ℚ := 1/50
/-- Kd (line 251): derivative disabled. -/
def kD : ℚ := 0
/-- max_step_per_adjust_c (line 256). -/
def maxStepPerAdjust : ℚ := 1
/-- max_sp_offset_c (line 257). -/
def maxSpOffset : ℚ := 10
/-- min_pid_interval_s = max(10, int(poll_s * 2)) (line 255). -/
def minPidInterval (p : WaitParams) : ℚ := (max 10 (p.poll_s * 2) : ℤ)
/-- poll = max(1, int(poll_s)) (line 295). -/
def pollQ (p : WaitParams) : ℚ := (max 1 p.poll_s : ℤ)
/-- max_phase1_time_s = 30 * 60 (line 297). -/
def maxPhase1Time : ℚ := 30 * 60
/-- phase1_window_s = max(30, window_s // 4) (line 301); Python floor division. -/
def phase1WindowS (p : WaitParams) : ℚ := (max 30 (Int.fdiv p.window_s 4) : ℤ)
/-- window_duration = max(1, int(window_s)) (line 395). -/
def windowDurationQ (p : WaitParams) : ℚ := (max 1 p.window_s : ℤ)
/-- max_settle_time_s = max(60 * 60, 2 * window_duration) (line 399). -/
def maxSettleTime (p : WaitParams) : ℚ := max (60 * 60) (2 * windowDurationQ p)

/-- _calculate_stability (lines 206-238): returns
(span, has_enough_time, coverage_seconds, sample_count).  The
window_duration parameter is accepted but unused, exactly as in the source. -/
def calculate_stability (window_values : List (ℚ × ℚ)) (_window_duration : ℚ)
    (min_time_s : ℚ) : ℚ × Bool × ℚ × ℕ :=
  match window_values with
  | [] => (0, false, 0, 0)
  | wv =>
    let vals := wv.map Prod.snd
    let sample_count := vals.length
    let coverage_s : ℚ :=
      if 2 ≤ wv.length then
        ((wv.getLast?.map Prod.fst).getD 0) - ((wv.head?.map Prod.fst).getD 0)
      else 0
    let has_enough_time : Bool := decide (min_time_s ≤ coverage_s)
    let span : ℚ := if 2 ≤ sample_count then listMax vals - listMin vals else 0
    (span, has_enough_time, coverage_s, sample_count)

/-- Phase-1 rolling window update (lines 325-327): append the new sample and
keep entries with ts >= now - phase1_window_s. -/
def phase1WindowUpdate (phase1_window_s now meas : ℚ)
    (window_values : List (ℚ × ℚ)) : List (ℚ × ℚ) :=
  (window_values ++ [(now, meas)]).filter (fun e => now - phase1_window_s ≤ e.1)

/-- Phase-2 rolling window update (lines 416-420): append the new sample and
keep entries with ts >= now - window_duration * 1.1 (the source deliberately
allows the window to grow 10% beyond the nominal duration). -/
def phase2WindowUpdate (window_duration now meas : ℚ)
    (window_values : List (ℚ × ℚ)) : List (ℚ × ℚ) :=
  (window_values ++ [(now, meas)]).filter
    (fun e => now - window_duration * (11/10) ≤ e.1)

/-- Mutable state of the phase-2 settlement loop (lines 396-397 plus the
missing-measurement counter initialised at line 298 and carried over from
phase 1). -/
structure Phase2State where
  window_values : List (ℚ × ℚ)
  end_required : ℚ
  missing_meas_count : ℕ
deriving DecidableEq, Repr

/-- Outcome of one iteration of the phase-2 while-loop body (lines 401-469). -/
inductive Phase2Out where
| stableFull
| stableNearFull
| simStable
| timedOut
| next (s : Phase2State)
deriving DecidableEq, Repr

/-- True exactly on the outcomes where the source logs PHASE 2: Stable and
returns (lines 448-454). -/
def Phase2Out.declaredStable : Phase2Out → Bool
| .stableFull => true
| .stableNearFull => true
| _ => false

/-- True when the iteration returns from _wait_until_stable (any of the four
return statements of the phase-2 loop). -/
def Phase2Out.returnsB : Phase2Out → Bool
| .next _ => false
| _ => true

/-- Body of the phase-2 loop for a poll on which a measurement is available
(lines 415-469).  now is the time.time() value of line 415; the fresh
time.time() of line 461 is identified with it. -/
def phase2MeasIter (p : WaitParams) (s : Phase2State) (now meas : ℚ) :
    Phase2Out :=
  let wd := windowDurationQ p
  let wv := phase2WindowUpdate wd now meas s.window_values
  let r := calculate_stability wv wd wd
  let span := r.1
  let has_enough_time := r.2.1
  let coverage_s := r.2.2.1
  let band_err := |meas - p.target_c|
  let in_band := band_err ≤ p.target_temp_delta_c
  let span_within_tol := span ≤ p.tol_c
  let has_full_coverage := wd ≤ coverage_s
  if span_within_tol ∧ in_band then
    if has_full_coverage ∧ has_enough_time = true then .stableFull
    else if wd * (95/100) ≤ coverage_s ∧ s.end_required ≤ now then .stableNearFull
    else .next { s with window_values := wv }
  else
    .next { window_values := wv, end_required := now + wd,
            missing_meas_count := s.missing_meas_count }

/-- One full iteration of the phase-2 loop (lines 401-469), including the
missing-measurement branch (lines 403-413).  settle_start is the value
captured at line 398. -/
def phase2Iter (p : WaitParams) (s : Phase2State) (now settle_start : ℚ)
    (meas : Option ℚ) : Phase2Out :=
  match meas with
  | none =>
    let c := s.missing_meas_count + 1
    if p.simulation_mode = true ∧ 6 ≤ c then .simStable
    else if maxSettleTime p < now - settle_start then .timedOut
    else .next { s with missing_meas_count := c }
  | some m => phase2MeasIter p s now m

/-- Mutable state of the phase-1 approach loop (lines 250-302): applied
setpoint sp, PID integrator, last error, last PID adjustment timestamp,
rolling window, cumulative missing-measurement counter, phase1_start. -/
structure Phase1State where
  sp : ℚ
  integ : ℚ
  last_err : Option ℚ
  last_pid_ts : Option ℚ
  window_values : List (ℚ × ℚ)
  missing_meas_count : ℕ
  phase1_start : ℚ
deriving DecidableEq, Repr

/-- State at entry to _wait_until_stable at time t0: sp = base setpoint,
integ = 0, no previous PID step, empty window, missing counter 0. -/
def initPhase1 (p : WaitParams) (t0 : ℚ) : Phase1State :=
  { sp := baseSp p, integ := 0, last_err := none, last_pid_ts := none,
    window_values := [], missing_meas_count := 0, phase1_start := t0 }

/-- Outcome of one iteration of the phase-1 while-loop body: either the loop
breaks to phase 2 (carrying the missing counter and the current setpoint) or
continues with an updated state. -/
inductive Phase1Out where
| toPhase2 (missing : ℕ) (sp : ℚ)
| next (s : Phase1State)
deriving DecidableEq, Repr

/-- Missing-measurement counter visible in a phase-1 outcome. -/
def Phase1Out.missingOf : Phase1Out → ℕ
| .toPhase2 c _ => c
| .next s => s.missing_meas_count

/-- Chamber setpoint in force after a phase-1 iteration. -/
def Phase1Out.spOf : Phase1Out → ℚ
| .toPhase2 _ sp => sp
| .next s => s.sp

/-- The PID adjustment block of phase 1 (lines 349-367): integrator update
with clamping, derivative (identically zero since Kd = 0), output clamped to
±max_step_per_adjust_c, and the new setpoint clamped to within
±max_sp_offset_c of the base setpoint. -/
def pidNudge (p : WaitParams) (s : Phase1State) (now m : ℚ) : Phase1State :=
  let err := p.target_c - m
  let dt_s := match s.last_pid_ts with
    | some t => now - t
    | none => pollQ p
  let integ1 := clamp maxSpOffset (s.integ + err * dt_s)
  let deriv : ℚ :=
    if kD = 0 ∨ s.last_err = none ∨ dt_s ≤ 0 then 0
    else (err - s.last_err.getD 0) / dt_s
  let output := clamp maxStepPerAdjust (kP * err + kI * integ1 + kD * deriv)
  let new_sp := baseSp p + clamp maxSpOffset ((s.sp - baseSp p) + output)
  { s with sp := new_sp, integ := integ1,
           last_err := some err, last_pid_ts := some now }

/-- Rate-limit guard on PID adjustments (line 351):
last_pid_ts is None or (now - last_pid_ts) >= min_pid_interval_s. -/
def pidDue (p : WaitParams) (last_pid_ts : Option ℚ) (now : ℚ) : Bool :=
  match last_pid_ts with
  | none => true
  | some t => decide (minPidInterval p ≤ now - t)

/-- One full iteration of the phase-1 loop body (lines 305-391): the
missing-measurement branch (307-317), band check and window update (319-334),
break on in_band (343-345), conditional PID nudge (348-384) and the phase-1
timeout check (387-389). -/
def phase1Iter (p : WaitParams) (s : Phase1State) (now : ℚ)
    (meas : Option ℚ) : Phase1Out :=
  match meas with
  | none =>
    let c := s.missing_meas_count + 1
    if p.simulation_mode = true ∧ 3 ≤ c then .toPhase2 c s.sp
    else if maxPhase1Time < now - s.phase1_start then .toPhase2 c s.sp
    else .next { s with missing_meas_count := c }
  | some m =>
    let band_err := |m - p.target_c|
    let in_band := band_err ≤ p.target_temp_delta_c
    let wv := phase1WindowUpdate (phase1WindowS p) now m s.window_values
    let min_stability_time := max 15 (phase1WindowS p * (1/2))
    let r := calculate_stability wv (phase1WindowS p) min_stability_time
    let span := r.1
    let has_enough_time := r.2.1
    let is_stable := span ≤ p.tol_c * (3/4)
    if in_band then .toPhase2 s.missing_meas_count s.sp
    else
      let s1 := { s with window_values := wv }
      let s2 :=
        if is_stable ∧ has_enough_time = true ∧ pidDue p s.last_pid_ts now = true
        then pidNudge p s1 now m
        else s1
      if maxPhase1Time < now - s.phase1_start then .toPhase2 s2.missing_meas_count s2.sp
      else .next s2

/-- Run the phase-1 loop over a finite trace of (poll time, measurement)
pairs, stopping at the first break to phase 2. -/
def phase1RunTrace (p : WaitParams) (s : Phase1State) :
    List (ℚ × Option ℚ) → Phase1Out
| [] => .next s
| (now, m) :: rest =>
  match phase1Iter p s now m with
  | .next s1 => phase1RunTrace p s1 rest
  | out => out

/-- Whole-call state of _wait_until_stable: the one-way phase structure.
approach is the phase-1 loop, settle the phase-2 loop (with its settle_start
time), finished any of the phase-2 returns. -/
inductive WaitState where
| approach (s1 : Phase1State)
| settle (s2 : Phase2State) (settle_start : ℚ)
| finished
deriving DecidableEq, Repr

/-- True only in the phase-1 (approach) portion of the call. -/
def WaitState.isApproach : WaitState → Bool
| .approach _ => true
| _ => false

/-- One poll of _wait_until_stable viewed as a transition system over
WaitState: a phase-1 break initialises the phase-2 state exactly as lines
395-398 do (empty window, end_required = now + window_duration,
settle_start = now, missing counter carried over). -/
def waitIter (p : WaitParams) (w : WaitState) (now : ℚ) (meas : Option ℚ) :
    WaitState :=
  match w with
  | .approach s1 =>
    match phase1Iter p s1 now meas with
    | .next s1a => .approach s1a
    | .toPhase2 missing _ =>
      .settle { window_values := [], end_required := now + windowDurationQ p,
                missing_meas_count := missing } now
  | .settle s2 ss =>
    match phase2Iter p s2 now ss meas with
    | .next s2a => .settle s2a ss
    | _ => .finished
  | .finished => .finished

/-! ### Profile model (src/core/temp.py) -/

/-- Python exception classes relevant to profile loading.  profileParseError
is the error class named by the specification; the source defines no such
class, and the constructor exists here only so that its absence from every
parse outcome can be stated. -/
inductive PyError where
| typeError
| jsonDecodeError
| profileParseError
| osError
deriving DecidableEq, Repr

/-- Python class of a step object as produced by create_temp_step
(temp.py lines 252-266). -/
inductive StepClass where
| base
| dwell
| ramp
| soak
| cycle
deriving DecidableEq, Repr

/-- A constructed temperature step: the fields of BaseTempStep (temp.py
lines 9-54) that the thermal-cycle engine reads, plus the CycleStep extras
(lines 133-146) and the Python class identity. -/
structure TempStep where
  cls : StepClass
  step_name : String
  temperature : ℚ
  target_temp_delta : ℚ
  temp_controller_offset : ℚ
  temp_cycle_type : String
  total_time : ℚ
  voltage : ℚ
  current : ℚ
  power_off_after : Bool
  settlement_tolerance : ℚ
  settlement_window : ℤ
  monitoring_interval : ℤ
  initial_delay : ℤ
  cycle_count : Option ℤ
  high_temp : Option ℚ
  low_temp : Option ℚ
  dwell_time_high : Option ℚ
  dwell_time_low : Option ℚ
deriving DecidableEq, Repr

/-- BaseTempStep.is_cycle_step (temp.py lines 56-58) returns False; only
CycleStep overrides it to True (lines 148-150). -/
def is_cycle_step (s : TempStep) : Bool := s.cls = .cycle

/-- BaseTempStep.expand_cycles (temp.py lines 60-62): returns [self].  No
subclass overrides this method; in particular CycleStep (lines 130-150)
inherits it unchanged. -/
def expand_cycles (s : TempStep) : List TempStep := [s]

/-- TempProfileManager.expand_all_cycles (temp.py lines 172-185):
cycle steps are replaced by step.expand_cycles(), other steps kept. -/
def expand_all_cycles (steps : List TempStep) : List TempStep :=
  (steps.map (fun s => if is_cycle_step s then expand_cycles s else [s])).flatten

/-- One step object of the JSON profile document: each field is present or
absent.  Only the fields with no default in the Python constructors can make
construction fail. -/
structure StepData where
  step_name : Option String
  temperature : Option ℚ
  target_temp_delta : Option ℚ
  temp_controller_offset : Option ℚ
  temp_cycle_type : Option String
  total_time : Option ℚ
  voltage : Option ℚ
  current : Option ℚ
  power_off_after : Option Bool
  settlement_tolerance : Option ℚ
  settlement_window : Option ℤ
  monitoring_interval : Option ℤ
  initial_delay : Option ℤ
  cycle_count : Option ℤ
  high_temp : Option ℚ
  low_temp : Option ℚ
  dwell_time_high : Option ℚ
  dwell_time_low : Option ℚ
deriving DecidableEq, Repr

/-- create_temp_step (temp.py lines 252-266): dispatch on the uppercased
cycle type; each constructor forwards to BaseTempStep.__init__, whose only
parameter without a default is step_name — a step object lacking it raises
TypeError, which no caller catches.  All other fields take the declared
defaults (temperature=0, temp_cycle_type omitted handled as "", tolerance
0.6, window 300, interval 3, delay 60). -/
def create_temp_step (sd : StepData) : Except PyError TempStep :=
  match sd.step_name with
  | none => .error .typeError
  | some nm =>
    let given := sd.temp_cycle_type.getD ""
    let u := given.toUpper
    let cls : StepClass :=
      if u = "CYCLE" then .cycle
      else if u = "DWELL" then .dwell
      else if u = "RAMP" then .ramp
      else if u = "SOAK" then .soak
      else .base
    let ty :=
      if u = "CYCLE" ∨ u = "DWELL" ∨ u = "RAMP" ∨ u = "SOAK" then u else given
    .ok { cls := cls, step_name := nm,
          temperature := sd.temperature.getD 0,
          target_temp_delta := sd.target_temp_delta.getD 0,
          temp_controller_offset := sd.temp_controller_offset.getD 0,
          temp_cycle_type := ty,
          total_time := sd.total_time.getD 0,
          voltage := sd.voltage.getD 0,
          current := sd.current.getD 0,
          power_off_after := sd.power_off_after.getD false,
          settlement_tolerance := sd.settlement_tolerance.getD (3/5),
          settlement_window := sd.settlement_window.getD 300,
          monitoring_interval := sd.monitoring_interval.getD 3,
          initial_delay := sd.initial_delay.getD 60,
          cycle_count := sd.cycle_count,
          high_temp := sd.high_temp,
          low_temp := sd.low_temp,
          dwell_time_high := sd.dwell_time_high,
          dwell_time_low := sd.dwell_time_low }

/-- The list comprehension [create_temp_step(**step) for step in profile_data]
(temp.py line 167): steps are built left to right and the first exception
propagates. -/
def create_steps : List StepData → Except PyError (List TempStep)
| [] => .ok []
| sd :: rest =>
  match create_temp_step sd with
  | .error e => .error e
  | .ok st =>
    match create_steps rest with
    | .error e => .error e
    | .ok sts => .ok (st :: sts)

/-- A profile document: either text that is not valid JSON, or a JSON list of
step objects. -/
inductive ProfileDoc where
| malformed
| wellFormed (steps : List StepData)
deriving DecidableEq, Repr

/-- TempProfileManager.parse_json_profile (temp.py lines 163-170): on
json.JSONDecodeError the error is logged and the empty list returned; any
other exception (TypeError from a missing step_name) propagates to the
caller. -/
def parse_json_profile : ProfileDoc → Except PyError (List TempStep)
| .malformed => .ok []
| .wellFormed l => create_steps l

/-! ### Setpoint application (lynx_thermal_cycle.py) -/

/-- _set_setpoint (lines 148-170) forwards the requested value unchanged to
temp_controller.set_setpoint (line 153); there is no dependence on the
previous setpoint or on elapsed time. -/
def set_setpoint_applied (setpoint_c : ℚ) : ℚ := setpoint_c

/-- The first two chamber setpoints applied while running an INT_CYCLE step
(run_thermal_cycle): line 970 applies target + offset, then the first loop
iteration applies high_temp + high_temp_offset at line 1030. -/
def intCyclePrologueSetpoints (temperature temp_controller_offset
    high_temp high_temp_offset : ℚ) : List ℚ :=
  [set_setpoint_applied (temperature + temp_controller_offset),
   set_setpoint_applied (high_temp + high_temp_offset)]

/-! ### Telemetry model (lynx_thermal_cycle.py) -/

/-- The header row written once at file creation (lines 106-111). -/
def telemetryHeader : List String :=
  ["timestamp", "step_index", "step_name", "cycle_type", "phase",
   "target_c", "setpoint_c", "actual_temp_c",
   "psu_voltage", "psu_current", "psu_output", "tc1_temp", "tc2_temp",
   "tests_pin_pout_functional", "tests_sig_a_performance",
   "tests_na_performance", "rf_on_off", "fault_status", "bandpath",
   "gain_value", "date_string", "temp_value"]

/-- Rendering of an optional numeric field: the source writes f-string
formatted text when the value is a number and the empty string otherwise
(the :.3f formatting is abstracted to toString). -/
def renderOptQ : Option ℚ → String
| some v => toString v
| none => ""

/-- Rendering of an optional integer field (str(int(x)) or blank). -/
def renderOptInt : Option ℤ → String
| some i => toString i
| none => ""

/-- Rendering of an optional boolean field (str(bool(x)) or blank). -/
def renderOptBool : Option Bool → String
| some b => if b then "True" else "False"
| none => ""

/-- Rendering of an optional string field (str(x) or blank). -/
def renderOptStr : Option String → String
| some t => t
| none => ""

/-- The DAQ snapshot dict built by _get_daq_snapshot (lines 741-757): str()
renderings of the status values, with the numeric fields kept optional
because the row writer re-checks isinstance before formatting them. -/
structure DaqSnapshot where
  rf_on_off : Bool
  fault_status : String
  bandpath : String
  gain_value : Option ℤ
  date_string : String
  temp_value : Option ℚ
deriving DecidableEq, Repr

/-- The row list built by _log_telemetry (lines 789-813): 22 entries in the
header order; every unavailable value becomes the empty string. -/
def telemetryRow (tsStr : String) (idx : Option ℤ) (name cycle phase : String)
    (target sp actual v c : Option ℚ) (out : Option Bool) (tc1 tc2 : Option ℚ)
    (pin sig na : Option Bool) (daq : Option DaqSnapshot) : List String :=
  [tsStr, renderOptInt idx, name, cycle, phase,
   renderOptQ target, renderOptQ sp, renderOptQ actual,
   renderOptQ v, renderOptQ c, renderOptBool out,
   renderOptQ tc1, renderOptQ tc2,
   renderOptBool pin, renderOptBool sig, renderOptBool na,
   (match daq with
    | some d => if d.rf_on_off then "True" else "False"
    | none => ""),
   (match daq with | some d => d.fault_status | none => ""),
   (match daq with | some d => d.bandpath | none => ""),
   (match daq with | some d => renderOptInt d.gain_value | none => ""),
   (match daq with | some d => d.date_string | none => ""),
   (match daq with | some d => renderOptQ d.temp_value | none => "")]

/-- The row list built by _log_external_telemetry (lines 674-697): the same
22 columns; the three test-result columns are always blank there. -/
def externalTelemetryRow (tsStr : String) (idx : Option ℤ)
    (name cycle phase : String) (target sp actual v c : Option ℚ)
    (out : Option Bool) (tc1 tc2 : Option ℚ) (rf : Option Bool)
    (fault bandpath : Option String) (gain : Option ℤ)
    (dateStr : Option String) (tempVal : Option ℚ) : List String :=
  [tsStr, renderOptInt idx, name, cycle, phase,
   renderOptQ target, renderOptQ sp, renderOptQ actual,
   renderOptQ v, renderOptQ c, renderOptBool out,
   renderOptQ tc1, renderOptQ tc2,
   "", "", "",
   renderOptBool rf, renderOptStr fault, renderOptStr bandpath,
   renderOptInt gain, renderOptStr dateStr, renderOptQ tempVal]

/-- Outcome of the CSV append inside a telemetry call. -/
inductive WriteResult where
| ok
| osError
deriving DecidableEq, Repr

/-- The exception boundary of _log_telemetry (lines 842-844): the body is
wrapped in try/except (OSError, ValueError, TypeError): pass, so a failed
CSV write (an OSError) never propagates to the caller.
(_log_external_telemetry catches all exceptions, lines 700-701.) -/
def logTelemetryPropagated : WriteResult → Option PyError
| .ok => none
| .osError => none

/-! ### Spec-side definition for the missing-measurement policy -/

/-- The counting rule stated by the specification for missing measurements:
a count of CONSECUTIVE unavailable polls, reset to zero by any successful
reading.  Defined from the spec wording, to be compared with the source's
cumulative missing_meas_count. -/
def specConsecutiveMissing (ms : List (Option ℚ)) : ℕ :=
  ms.foldl (fun acc m => match m with | none => acc + 1 | some _ => 0) 0

/-! ### Concrete inputs used as witnesses and counterexamples -/

/-- Wait parameters of a representative non-simulation DWELL step: target
25 C, band ±1 C, tolerance 0.6 C, window 300 s, poll 3 s, no offset. -/
def dwellParams : WaitParams :=
  { target_c := 25, target_temp_delta_c := 1, tol_c := 3/5, window_s := 300,
    poll_s := 3, temp_offset := 0, simulation_mode := false }

/-- The same step parameters with simulation_mode set. -/
def dwellParamsSim : WaitParams :=
  { dwellParams with simulation_mode := true }

/-- A poll trace with two missing measurements, one successful out-of-band
reading, then another missing measurement. -/
def c7Trace : List (ℚ × Option ℚ) := [(0, none), (1, none), (2, some 100), (3, none)]

/-- A CYCLE profile step with cycle_count = 3 (high 70 C, low -20 C), as
create_temp_step builds it. -/
def cycleStep3 : TempStep :=
  { cls := .cycle, step_name := "thermal cycle", temperature := 0,
    target_temp_delta := 0, temp_controller_offset := 0,
    temp_cycle_type := "CYCLE", total_time := 0, voltage := 0, current := 0,
    power_off_after := false, settlement_tolerance := 3/5,
    settlement_window := 300, monitoring_interval := 3, initial_delay := 60,
    cycle_count := some 3, high_temp := some 70, low_temp := some (-20),
    dwell_time_high := some 10, dwell_time_low := some 10 }

/-- A step object that has a step_name but omits temperature and cycle type. -/
def namedOnlyStep : StepData :=
  { step_name := some "ramp to 70", temperature := none,
    target_temp_delta := none, temp_controller_offset := none,
    temp_cycle_type := none, total_time := none, voltage := none,
    current := none, power_off_after := none, settlement_tolerance := none,
    settlement_window := none, monitoring_interval := none,
    initial_delay := none, cycle_count := none, high_temp := none,
    low_temp := none, dwell_time_high := none, dwell_time_low := none }

/-- Span of a window: maximum minus minimum of the windowed measurements.
For nonempty windows this is the span returned by _calculate_stability
(single-sample windows give 0 either way). -/
def windowSpan (l : List (ℚ × ℚ)) : ℚ :=
  listMax (l.map Prod.snd) - listMin (l.map Prod.snd)

/-- Time coverage of a window: newest timestamp minus oldest timestamp.
For nonempty windows this is the coverage returned by _calculate_stability
(single-sample windows give 0 either way). -/
def windowCoverage (l : List (ℚ × ℚ)) : ℚ :=
  ((l.getLast?).map Prod.fst).getD 0 - ((l.head?).map Prod.fst).getD 0

/-- The bound the phase-1 PID code maintains: the applied setpoint stays
within max_sp_offset_c = 10 C of the base setpoint, and the integral
accumulator stays within the same band. -/
def phase1Inv (p : WaitParams) (s : Phase1State) : Prop :=
  |s.sp - baseSp p| ≤ maxSpOffset ∧ |s.integ| ≤ maxSpOffset

/-! ## Theorems -/

/-- Python clamping max(-c, min(c, x)) stays within [-c, c]. -/
theorem abs_clamp_le (c x : ℚ) (hc : 0 ≤ c) : |clamp c x| ≤ c := by
  unfold clamp
  rw [abs_le]
  exact ⟨le_max_left _ _, max_le (by linarith) (min_le_left _ _)⟩

/-- Moving a point x (already inside the clamp band) by o and re-clamping
displaces it by at most the magnitude of o. -/
theorem abs_clamp_add_sub_le (c x o : ℚ) (hx : |x| ≤ c) :
    |clamp c (x + o) - x| ≤ |o| := by
  unfold clamp
  rw [abs_le] at hx ⊢
  have h1 : -|o| ≤ o := neg_abs_le o
  have h2 : o ≤ |o| := le_abs_self o
  constructor
  · have hmin : x - |o| ≤ min c (x + o) := le_min (by linarith) (by linarith)
    have := hmin.trans (le_max_right (-c) (min c (x + o)))
    linarith
  · have hmax : max (-c) (min c (x + o)) ≤ x + |o| :=
      max_le (by linarith) ((min_le_right c (x + o)).trans (by linarith))
    linarith

/-- Re-clamping a band offset after adding a step keeps the new point within
the magnitude of the step from the old point. -/
theorem base_clamp_step (b x o c : ℚ) (hx : |x - b| ≤ c) :
    |(b + clamp c ((x - b) + o)) - x| ≤ |o| := by
  have h := abs_clamp_add_sub_le c (x - b) o hx
  have heq : (b + clamp c ((x - b) + o)) - x = clamp c ((x - b) + o) - (x - b) := by
    ring
  rw [heq]
  exact h

/-- window_duration = max(1, int(window_s)) is at least one second. -/
theorem one_le_windowDurationQ (p : WaitParams) : 1 ≤ windowDurationQ p := by
  unfold windowDurationQ
  exact_mod_cast le_max_left 1 p.window_s

/-- On a nonempty window, _calculate_stability returns exactly the window
span, the coverage, the comparison of coverage against min_time_s, and the
sample count. -/
theorem calc_stability_spread (l : List (ℚ × ℚ)) (wd mt : ℚ) (hl : l ≠ []) :
    calculate_stability l wd mt =
      (windowSpan l, decide (mt ≤ windowCoverage l), windowCoverage l,
       l.length) := by
  match l with
  | [] => exact absurd rfl hl
  | [a] =>
    simp [calculate_stability, windowSpan, windowCoverage, listMax, listMin]
  | a :: b :: bs =>
    simp [calculate_stability, windowSpan, windowCoverage]

/-- The phase-2 window update always contains the sample it appends, so it
is never empty. -/
theorem phase2WindowUpdate_ne_nil (p : WaitParams) (now m : ℚ)
    (l : List (ℚ × ℚ)) :
    phase2WindowUpdate (windowDurationQ p) now m l ≠ [] := by
  have hwd : (1 : ℚ) ≤ windowDurationQ p := one_le_windowDurationQ p
  have hmem : (now, m) ∈ phase2WindowUpdate (windowDurationQ p) now m l := by
    unfold phase2WindowUpdate
    refine List.mem_filter.mpr ⟨List.mem_append.mpr (.inr (by simp)), ?_⟩
    simp only [decide_eq_true_eq]
    nlinarith
  intro hnil
  rw [hnil] at hmem
  exact absurd hmem (List.not_mem_nil _)

/-- C1: on every phase-2 poll with a measurement available, _wait_until_stable
declares the step stable exactly when the window span is within the
settlement tolerance, the measurement is within the acceptance band of the
target, and the window coverage reaches the full window duration or reaches
95% of it with the end_required grace deadline elapsed. -/
theorem phase2_stable_iff (p : WaitParams) (s : Phase2State) (now m : ℚ) :
    (phase2MeasIter p s now m).declaredStable = true ↔
      (windowSpan (phase2WindowUpdate (windowDurationQ p) now m
          s.window_values) ≤ p.tol_c ∧
       |m - p.target_c| ≤ p.target_temp_delta_c ∧
       (windowDurationQ p ≤ windowCoverage (phase2WindowUpdate
            (windowDurationQ p) now m s.window_values) ∨
        (windowDurationQ p * (95/100) ≤ windowCoverage (phase2WindowUpdate
            (windowDurationQ p) now m s.window_values) ∧
         s.end_required ≤ now))) := by
  have hne := phase2WindowUpdate_ne_nil p now m s.window_values
  unfold phase2MeasIter
  dsimp only
  rw [calc_stability_spread _ _ _ hne]
  set wv := phase2WindowUpdate (windowDurationQ p) now m s.window_values
    with hwv
  split_ifs with h1 h2 h3
  · exact iff_of_true rfl ⟨h1.1, h1.2, Or.inl h2.1⟩
  · exact iff_of_true rfl ⟨h1.1, h1.2, Or.inr h3⟩
  · refine iff_of_false (by simp [Phase2Out.declaredStable]) ?_
    rintro ⟨ha, hb, hc | hc⟩
    · exact h2 ⟨hc, by simp only [decide_eq_true_eq]; exact hc⟩
    · exact h3 hc
  · refine iff_of_false (by simp [Phase2Out.declaredStable]) ?_
    rintro ⟨ha, hb, _⟩
    exact h1 ⟨ha, hb⟩

/-- C2: for a CYCLE step with cycle_count = 3, expansion is claimed to give
2 * 3 = 6 alternating sub-steps; the source's expand_cycles is never
overridden by CycleStep, so expansion returns the step itself and in fact
expand_all_cycles is the identity on every step list. -/
theorem cycle_expansion_returns_single_step :
    (∀ steps : List TempStep, expand_all_cycles steps = steps) ∧
    expand_all_cycles [cycleStep3] = [cycleStep3] ∧
    (expand_all_cycles [cycleStep3]).length = 1 ∧ (1 : ℕ) ≠ 2 * 3 := by
  have hid : ∀ steps : List TempStep, expand_all_cycles steps = steps := by
    intro steps
    induction steps with
    | nil => rfl
    | cons s rest ih =>
      simp only [expand_all_cycles, List.map_cons, List.flatten_cons] at ih ⊢
      rw [ih]
      have hf : (if is_cycle_step s then expand_cycles s else [s]) = [s] := by
        simp [expand_cycles]
      rw [hf]
      rfl
  exact ⟨hid, hid _, by rw [hid _]; rfl, by decide⟩

/-- C3: with a measurement available on every poll but permanently out of the
acceptance band (probe stuck at 100 C while the target is 25 C), no iteration
of the phase-2 settlement loop ever returns: the settlement timeout of
_wait_until_stable is consulted only on polls with a missing measurement, so
the loop has no exit on this trajectory, whatever the elapsed time. -/
theorem phase2_loop_never_exits_out_of_band (s : Phase2State)
    (now settle_start : ℚ) :
    (phase2Iter dwellParams s now settle_start (some 100)).returnsB = false := by
  show (phase2MeasIter dwellParams s now 100).returnsB = false
  have hband : ¬ (|(100 : ℚ) - dwellParams.target_c| ≤
      dwellParams.target_temp_delta_c) := by
    norm_num [dwellParams]
  unfold phase2MeasIter
  rw [if_neg (fun hc => hband hc.2)]
  rfl

/-- C4 counterexample: a profile document that is not valid JSON makes
parse_json_profile log and return the empty step list: the caller receives a
step list, not a ProfileParseError (no such error class exists in the
source). -/
theorem parse_malformed_silently_ok :
    parse_json_profile ProfileDoc.malformed = Except.ok ([] : List TempStep) ∧
    parse_json_profile ProfileDoc.malformed ≠
      Except.error PyError.profileParseError :=
  ⟨rfl, fun h => nomatch h⟩

/-- Building the step list succeeds, with one step per document entry,
whenever every entry carries a step_name. -/
theorem create_steps_ok_of_names (l : List StepData)
    (h : ∀ sd ∈ l, sd.step_name ≠ none) :
    ∃ steps, create_steps l = Except.ok steps ∧ steps.length = l.length := by
  induction l with
  | nil => exact ⟨[], rfl, rfl⟩
  | cons sd rest ih =>
    obtain ⟨steps, hs, hl⟩ := ih (fun x hx => h x (List.mem_cons_of_mem _ hx))
    have hname := h sd (List.mem_cons_self _ _)
    cases hn : sd.step_name with
    | none => exact absurd hn hname
    | some nm =>
      have hsd : ∃ st, create_temp_step sd = Except.ok st := by
        unfold create_temp_step
        rw [hn]
        exact ⟨_, rfl⟩
      obtain ⟨st, hst⟩ := hsd
      exact ⟨st :: steps, by simp [create_steps, hst, hs], by simp [hl]⟩

/-- Building the step list either succeeds or fails with the TypeError raised
by BaseTempStep.__init__ on a missing step_name; no other error is possible. -/
theorem create_steps_ok_or_typeError (l : List StepData) :
    (∃ steps, create_steps l = Except.ok steps) ∨
      create_steps l = Except.error PyError.typeError := by
  induction l with
  | nil => exact .inl ⟨[], rfl⟩
  | cons sd rest ih =>
    cases hn : sd.step_name with
    | none =>
      right
      simp [create_steps, create_temp_step, hn]
    | some nm =>
      have hsd : ∃ st, create_temp_step sd = Except.ok st := by
        unfold create_temp_step
        rw [hn]
        exact ⟨_, rfl⟩
      obtain ⟨st, hst⟩ := hsd
      rcases ih with ⟨steps, hs⟩ | hs
      · exact .inl ⟨st :: steps, by simp [create_steps, hst, hs]⟩
      · right
        simp [create_steps, hst, hs]

/-- C4 amended: malformed JSON is caught inside parse_json_profile, which
logs and returns the empty step list; a document whose steps all carry
step_name parses into one step per entry even when temperature or cycle type
are missing (defaults applied); and no outcome of parsing is a
ProfileParseError — the only raisable error is the TypeError of a missing
step_name. -/
theorem parse_profile_error_policy (l : List StepData)
    (hnames : ∀ sd ∈ l, sd.step_name ≠ none) :
    parse_json_profile ProfileDoc.malformed = Except.ok [] ∧
    (∃ steps, parse_json_profile (ProfileDoc.wellFormed l) = Except.ok steps ∧
       steps.length = l.length) ∧
    (∀ doc, parse_json_profile doc ≠ Except.error PyError.profileParseError)
    := by
  refine ⟨rfl, create_steps_ok_of_names l hnames, ?_⟩
  intro doc
  cases doc with
  | malformed => exact fun h => nomatch h
  | wellFormed lx =>
    rcases create_steps_ok_or_typeError lx with ⟨steps, hs⟩ | hs <;>
      simp [parse_json_profile, hs]

/-- C4 witness: a one-step document whose entry has a name but no
temperature and no cycle type parses into a single step. -/
theorem parse_profile_error_policy_witness :
    (∀ sd ∈ [namedOnlyStep], sd.step_name ≠ none) ∧
    (parse_json_profile ProfileDoc.malformed = Except.ok [] ∧
     (∃ steps, parse_json_profile (ProfileDoc.wellFormed [namedOnlyStep]) =
        Except.ok steps ∧ steps.length = [namedOnlyStep].length) ∧
     (∀ doc, parse_json_profile doc ≠ Except.error PyError.profileParseError))
    :=
  ⟨by simp [namedOnlyStep],
   parse_profile_error_policy [namedOnlyStep] (by simp [namedOnlyStep])⟩

/-- C5 counterexample: entering an INT_CYCLE step with target 25 C and
high_temp 70 C applies the consecutive chamber setpoints 25 C then 70 C with
no rate limiting (_set_setpoint forwards the requested value unchanged).
The jump of 45 C violates a degrees-per-second ceiling even at the most
generous reading of the code's only rate-like constants
(max_step_per_adjust_c / min_pid_interval_s = 0.1 C/s, 60 s elapsed,
epsilon 1 C). -/
theorem int_cycle_setpoint_jump :
    intCyclePrologueSetpoints 25 0 70 0 = [25, 70] ∧
    ¬ (|(70 : ℚ) - 25| ≤ (1/10) * 60 + 1) := by
  constructor
  · norm_num [intCyclePrologueSetpoints, set_setpoint_applied]
  · norm_num

/-- A PID nudge moves the setpoint by at most max_step_per_adjust_c = 1 C,
provided the setpoint is within the max_sp_offset_c band of the base
setpoint. -/
theorem pidNudge_sp_close (p : WaitParams) (s : Phase1State) (now m : ℚ)
    (hsp : |s.sp - baseSp p| ≤ maxSpOffset) :
    |(pidNudge p s now m).sp - s.sp| ≤ maxStepPerAdjust := by
  unfold pidNudge
  dsimp only
  refine le_trans (base_clamp_step (baseSp p) s.sp _ maxSpOffset hsp) ?_
  exact abs_clamp_le maxStepPerAdjust _ (by norm_num [maxStepPerAdjust])

/-- A PID nudge leaves the state inside the clamp band: the new setpoint is
within max_sp_offset_c of the base setpoint and the integrator within
max_sp_offset_c of zero, unconditionally. -/
theorem pidNudge_inv (p : WaitParams) (s : Phase1State) (now m : ℚ) :
    phase1Inv p (pidNudge p s now m) := by
  unfold pidNudge phase1Inv
  dsimp only
  constructor
  · rw [add_sub_cancel_left]
    exact abs_clamp_le maxSpOffset _ (by norm_num [maxSpOffset])
  · exact abs_clamp_le maxSpOffset _ (by norm_num [maxSpOffset])

/-- C5 amended: within phase 1 of _wait_until_stable, every iteration on a
poll with a measurement changes the applied setpoint by at most
max_step_per_adjust_c = 1 C (given the setpoint is within the
max_sp_offset_c band of the base, which is invariant), and any iteration
that does change the setpoint was allowed by the PID rate guard — the
previous adjustment is at least min_pid_interval_s = max(10, 2*poll_s)
seconds old (or there was none).  No other rate limiting exists: the
step-entry setpoint applications forward the requested value unchanged
(int_cycle_setpoint_jump). -/
theorem pid_setpoint_rate_limited (p : WaitParams) (s : Phase1State)
    (now m : ℚ) (hsp : |s.sp - baseSp p| ≤ maxSpOffset) :
    |(phase1Iter p s now (some m)).spOf - s.sp| ≤ maxStepPerAdjust ∧
    ((phase1Iter p s now (some m)).spOf ≠ s.sp →
      pidDue p s.last_pid_ts now = true) := by
  unfold phase1Iter
  dsimp only
  split_ifs with hband htimeout hpid hpid
  · exact ⟨by norm_num [Phase1Out.spOf, maxStepPerAdjust],
           fun hne => absurd rfl hne⟩
  · refine ⟨?_, fun _ => hpid.2.2⟩
    simpa [Phase1Out.spOf, maxStepPerAdjust] using
      pidNudge_sp_close p _ now m hsp
  · exact ⟨by norm_num [Phase1Out.spOf, maxStepPerAdjust],
           fun hne => absurd rfl hne⟩
  · refine ⟨?_, fun _ => hpid.2.2⟩
    simpa [Phase1Out.spOf, maxStepPerAdjust] using
      pidNudge_sp_close p _ now m hsp
  · exact ⟨by norm_num [Phase1Out.spOf, maxStepPerAdjust],
           fun hne => absurd rfl hne⟩

/-- C5 witness: a concrete phase-1 iteration from the initial state (setpoint
at the base value) respects the per-adjustment bound. -/
theorem pid_setpoint_rate_limited_witness :
    |(initPhase1 dwellParams 0).sp - baseSp dwellParams| ≤ maxSpOffset ∧
    (|(phase1Iter dwellParams (initPhase1 dwellParams 0) 5
        (some 30)).spOf - (initPhase1 dwellParams 0).sp| ≤ maxStepPerAdjust ∧
     ((phase1Iter dwellParams (initPhase1 dwellParams 0) 5
        (some 30)).spOf ≠ (initPhase1 dwellParams 0).sp →
       pidDue dwellParams (initPhase1 dwellParams 0).last_pid_ts 5 = true)) :=
  ⟨by norm_num [initPhase1, maxSpOffset],
   pid_setpoint_rate_limited dwellParams (initPhase1 dwellParams 0) 5 30
     (by norm_num [initPhase1, maxSpOffset])⟩

/-- C10: the phase-1 PID invariant — applied setpoint within
max_sp_offset_c = 10 C of the base setpoint (target plus offset) and the
integral accumulator within the same band — holds at entry and is preserved
by every phase-1 iteration, including the setpoint carried out to phase 2. -/
theorem setpoint_deviation_invariant (p : WaitParams) (s : Phase1State)
    (now : ℚ) (meas : Option ℚ) (h : phase1Inv p s) :
    phase1Inv p (initPhase1 p now) ∧
    (∀ sx, phase1Iter p s now meas = Phase1Out.next sx → phase1Inv p sx) ∧
    (∀ c spx, phase1Iter p s now meas = Phase1Out.toPhase2 c spx →
       |spx - baseSp p| ≤ maxSpOffset) := by
  refine ⟨by norm_num [phase1Inv, initPhase1, maxSpOffset], ?_, ?_⟩
  · intro sx hb
    cases meas with
    | none =>
      unfold phase1Iter at hb
      dsimp only at hb
      split_ifs at hb
      cases hb
      exact ⟨h.1, h.2⟩
    | some m =>
      unfold phase1Iter at hb
      dsimp only at hb
      split_ifs at hb
      · cases hb
        exact pidNudge_inv p _ now m
      · cases hb
        exact ⟨h.1, h.2⟩
  · intro c spx hb
    cases meas with
    | none =>
      unfold phase1Iter at hb
      dsimp only at hb
      split_ifs at hb
      all_goals cases hb
      all_goals exact h.1
    | some m =>
      unfold phase1Iter at hb
      dsimp only at hb
      split_ifs at hb
      · cases hb
        exact h.1
      · cases hb
        exact (pidNudge_inv p _ now m).1
      · cases hb
        exact h.1

/-- C10 witness: the invariant holds for the initial state of a concrete
step and is preserved by a concrete iteration. -/
theorem setpoint_deviation_invariant_witness :
    phase1Inv dwellParams (initPhase1 dwellParams 0) ∧
    (phase1Inv dwellParams (initPhase1 dwellParams 0) ∧
     (∀ sx, phase1Iter dwellParams (initPhase1 dwellParams 0) 5 (some 30) =
        Phase1Out.next sx → phase1Inv dwellParams sx) ∧
     (∀ c spx, phase1Iter dwellParams (initPhase1 dwellParams 0) 5 (some 30) =
        Phase1Out.toPhase2 c spx → |spx - baseSp dwellParams| ≤ maxSpOffset))
    :=
  ⟨by norm_num [phase1Inv, initPhase1, maxSpOffset],
   setpoint_deviation_invariant dwellParams (initPhase1 dwellParams 0) 5
     (some 30) (by norm_num [phase1Inv, initPhase1, maxSpOffset])⟩

/-- C6 counterexample: the phase-2 window update prunes with cutoff
now - 1.1 * window_duration, so with window_duration 100 s an entry 105 s old
survives the update even though it is older than now - window_duration. -/
theorem phase2_window_retains_stale_entry :
    phase2WindowUpdate 100 105 30 [(0, 25)] = [(0, 25), (105, 30)] ∧
    ¬ ((105 : ℚ) - 100 ≤ 0) := by
  constructor
  · norm_num [phase2WindowUpdate, List.filter]
  · norm_num

/-- C6 amended: after appending the new sample and pruning, the phase-2
window retains exactly the entries with timestamps in
[now - 1.1 * window_duration, now] (the phase-1 window uses the exact cutoff
now - phase1_window_s), and when the incoming window has non-decreasing
timestamps none of which exceeds the poll time, the updated window again has
non-decreasing timestamps. -/
theorem window_update_retention (wd p1w now m : ℚ) (l : List (ℚ × ℚ))
    (hsorted : List.Pairwise (fun a b : ℚ × ℚ => a.1 ≤ b.1) l)
    (hpast : ∀ e ∈ l, e.1 ≤ now) :
    (∀ e : ℚ × ℚ, e ∈ phase2WindowUpdate wd now m l ↔
       (e ∈ l ∨ e = (now, m)) ∧ now - wd * (11/10) ≤ e.1) ∧
    (∀ e : ℚ × ℚ, e ∈ phase1WindowUpdate p1w now m l ↔
       (e ∈ l ∨ e = (now, m)) ∧ now - p1w ≤ e.1) ∧
    List.Pairwise (fun a b : ℚ × ℚ => a.1 ≤ b.1)
      (phase2WindowUpdate wd now m l) ∧
    List.Pairwise (fun a b : ℚ × ℚ => a.1 ≤ b.1)
      (phase1WindowUpdate p1w now m l) := by
  have happ : List.Pairwise (fun a b : ℚ × ℚ => a.1 ≤ b.1) (l ++ [(now, m)]) := by
    rw [List.pairwise_append]
    refine ⟨hsorted, by simp, ?_⟩
    intro a ha b hb
    have hb1 : b = (now, m) := by simpa using hb
    rw [hb1]
    exact hpast a ha
  refine ⟨?_, ?_, ?_, ?_⟩
  · intro e
    simp only [phase2WindowUpdate, List.mem_filter, List.mem_append,
      List.mem_singleton, decide_eq_true_eq]
  · intro e
    simp only [phase1WindowUpdate, List.mem_filter, List.mem_append,
      List.mem_singleton, decide_eq_true_eq]
  · exact happ.filter _
  · exact happ.filter _

/-- C6 witness: the retention and ordering facts instantiated on a concrete
one-entry window receiving a new sample. -/
theorem window_update_retention_witness :
    (List.Pairwise (fun a b : ℚ × ℚ => a.1 ≤ b.1) [((0 : ℚ), (25 : ℚ))] ∧
     (∀ e ∈ [((0 : ℚ), (25 : ℚ))], e.1 ≤ (1 : ℚ))) ∧
    ((∀ e : ℚ × ℚ, e ∈ phase2WindowUpdate 100 1 30 [(0, 25)] ↔
        (e ∈ [((0 : ℚ), (25 : ℚ))] ∨ e = (1, 30)) ∧
          (1 : ℚ) - 100 * (11/10) ≤ e.1) ∧
     (∀ e : ℚ × ℚ, e ∈ phase1WindowUpdate 75 1 30 [(0, 25)] ↔
        (e ∈ [((0 : ℚ), (25 : ℚ))] ∨ e = (1, 30)) ∧ (1 : ℚ) - 75 ≤ e.1) ∧
     List.Pairwise (fun a b : ℚ × ℚ => a.1 ≤ b.1)
       (phase2WindowUpdate 100 1 30 [(0, 25)]) ∧
     List.Pairwise (fun a b : ℚ × ℚ => a.1 ≤ b.1)
       (phase1WindowUpdate 75 1 30 [(0, 25)])) :=
  ⟨⟨by simp, by norm_num⟩,
   window_update_retention 100 75 1 30 [(0, 25)] (by simp) (by norm_num)⟩

/-- C7 amended: in every mode, the missing-measurement counter of
_wait_until_stable is cumulative over the whole call — a successful reading
leaves it unchanged, a missing poll increments it, and it is never reset —
and a missing poll that continues waiting holds the setpoint and the window
unchanged.  Only in simulation mode do the accumulated thresholds end a
phase (3 ends phase 1, 6 ends phase 2 treated as stable); outside
simulation mode a missing poll keeps the loop waiting, and only the phase
timeout ends the wait (phase 1 breaking to phase 2, phase 2 returning with
the settlement-timeout warning). -/
theorem missing_measurement_policy (p : WaitParams) (s1 : Phase1State)
    (s2 : Phase2State) (now ss m : ℚ) :
    (phase1Iter p s1 now (some m)).missingOf = s1.missing_meas_count ∧
    (phase1Iter p s1 now none).missingOf = s1.missing_meas_count + 1 ∧
    (∀ sx, phase1Iter p s1 now none = Phase1Out.next sx →
       sx.sp = s1.sp ∧ sx.window_values = s1.window_values) ∧
    (p.simulation_mode = true → 3 ≤ s1.missing_meas_count + 1 →
       phase1Iter p s1 now none =
         Phase1Out.toPhase2 (s1.missing_meas_count + 1) s1.sp) ∧
    (p.simulation_mode = true → 6 ≤ s2.missing_meas_count + 1 →
       phase2Iter p s2 now ss none = Phase2Out.simStable) ∧
    (p.simulation_mode = false →
       (now - s1.phase1_start ≤ maxPhase1Time →
          phase1Iter p s1 now none =
            Phase1Out.next
              { s1 with missing_meas_count := s1.missing_meas_count + 1 }) ∧
       (maxPhase1Time < now - s1.phase1_start →
          phase1Iter p s1 now none =
            Phase1Out.toPhase2 (s1.missing_meas_count + 1) s1.sp)) ∧
    (p.simulation_mode = false →
       (now - ss ≤ maxSettleTime p →
          phase2Iter p s2 now ss none =
            Phase2Out.next
              { s2 with missing_meas_count := s2.missing_meas_count + 1 }) ∧
       (maxSettleTime p < now - ss →
          phase2Iter p s2 now ss none = Phase2Out.timedOut)) := by
  refine ⟨?_, ?_, ?_, ?_, ?_, ?_, ?_⟩
  · unfold phase1Iter
    dsimp only
    split_ifs
    · rfl
    · simp [Phase1Out.missingOf, pidNudge]
    · simp [Phase1Out.missingOf, pidNudge]
    · rfl
    · simp [Phase1Out.missingOf, pidNudge]
  · unfold phase1Iter
    dsimp only
    split_ifs <;> rfl
  · intro sx hb
    unfold phase1Iter at hb
    dsimp only at hb
    split_ifs at hb
    cases hb
    exact ⟨rfl, rfl⟩
  · intro hsim h3
    unfold phase1Iter
    dsimp only
    rw [if_pos ⟨hsim, h3⟩]
  · intro hsim h6
    unfold phase2Iter
    dsimp only
    rw [if_pos ⟨hsim, h6⟩]
  · intro hns
    have hnsim : ¬ (p.simulation_mode = true ∧
        3 ≤ s1.missing_meas_count + 1) := by
      rintro ⟨hc, -⟩
      rw [hns] at hc
      exact Bool.false_ne_true hc
    constructor
    · intro hto
      unfold phase1Iter
      dsimp only
      rw [if_neg hnsim, if_neg (not_lt.mpr hto)]
    · intro hgt
      unfold phase1Iter
      dsimp only
      rw [if_neg hnsim, if_pos hgt]
  · intro hns
    have hnsim : ¬ (p.simulation_mode = true ∧
        6 ≤ s2.missing_meas_count + 1) := by
      rintro ⟨hc, -⟩
      rw [hns] at hc
      exact Bool.false_ne_true hc
    constructor
    · intro hto
      unfold phase2Iter
      dsimp only
      rw [if_neg hnsim, if_neg (not_lt.mpr hto)]
    · intro hgt
      unfold phase2Iter
      dsimp only
      rw [if_neg hnsim, if_pos hgt]

/-- C7 witness: in simulation the third accumulated miss ends phase 1, and
outside simulation the same missing poll merely continues the wait with the
setpoint and window held. -/
theorem missing_measurement_policy_witness :
    (dwellParamsSim.simulation_mode = true ∧ 3 ≤ 2 + 1 ∧
     phase1Iter dwellParamsSim
        { initPhase1 dwellParamsSim 0 with missing_meas_count := 2 } 4 none =
       Phase1Out.toPhase2 (2 + 1)
         ({ initPhase1 dwellParamsSim 0 with missing_meas_count := 2 }).sp) ∧
    (dwellParams.simulation_mode = false ∧
     (4 : ℚ) - (initPhase1 dwellParams 0).phase1_start ≤ maxPhase1Time ∧
     phase1Iter dwellParams (initPhase1 dwellParams 0) 4 none =
       Phase1Out.next
         { initPhase1 dwellParams 0 with missing_meas_count :=
             (initPhase1 dwellParams 0).missing_meas_count + 1 }) :=
  ⟨⟨rfl, by norm_num,
    (missing_measurement_policy dwellParamsSim
      { initPhase1 dwellParamsSim 0 with missing_meas_count := 2 }
      ⟨[], 0, 0⟩ 4 0 0).2.2.2.1 rfl (by norm_num)⟩,
   ⟨rfl, by norm_num [initPhase1, maxPhase1Time],
    ((missing_measurement_policy dwellParams (initPhase1 dwellParams 0)
      ⟨[], 0, 0⟩ 4 0 0).2.2.2.2.2.1 rfl).1
      (by norm_num [initPhase1, maxPhase1Time])⟩⟩

/-- C7 counterexample: in simulation mode, the trace miss, miss, reading,
miss triggers the three-miss break of phase 1 although the longest run of
consecutive missing polls at that point is 1: the source counter is
cumulative and is not reset by the successful reading, while the counting
rule stated by the claim (specConsecutiveMissing) stands at 1 < 3 there. -/
theorem missing_count_cumulative_counterexample :
    phase1RunTrace dwellParamsSim (initPhase1 dwellParamsSim 0) c7Trace =
      Phase1Out.toPhase2 3 25 ∧
    specConsecutiveMissing (c7Trace.map Prod.snd) = 1 ∧
    ¬ (3 ≤ specConsecutiveMissing (c7Trace.map Prod.snd)) := by
  refine ⟨?_, by norm_num [specConsecutiveMissing, c7Trace, List.foldl],
          by norm_num [specConsecutiveMissing, c7Trace, List.foldl]⟩
  norm_num [phase1RunTrace, phase1Iter, phase1WindowUpdate,
    calculate_stability, pidDue, dwellParamsSim, dwellParams, initPhase1,
    c7Trace, baseSp, phase1WindowS, maxPhase1Time, minPidInterval, pollQ,
    listMax, listMin, List.filter, Int.fdiv]

/-- C8: every row written by _log_telemetry and _log_external_telemetry has
exactly as many fields as the header row (22), unavailable values are
rendered as empty fields, and a failed CSV write is caught inside the
recording call and never propagates. -/
theorem telemetry_row_fixed_schema :
    (∀ tsStr idx name cycle phase target sp actual v c out tc1 tc2 pin sig na
        daq,
      (telemetryRow tsStr idx name cycle phase target sp actual v c out tc1
        tc2 pin sig na daq).length = telemetryHeader.length) ∧
    (∀ tsStr idx name cycle phase target sp actual v c out tc1 tc2 rf fault
        bandpath gain dateStr tempVal,
      (externalTelemetryRow tsStr idx name cycle phase target sp actual v c
        out tc1 tc2 rf fault bandpath gain dateStr tempVal).length =
        telemetryHeader.length) ∧
    telemetryHeader.length = 22 ∧
    telemetryRow "t" none "" "" "" none none none none none none none none
        none none none none =
      ["t", "", "", "", "", "", "", "", "", "", "", "", "", "", "", "", "",
       "", "", "", "", ""] ∧
    (∀ w, logTelemetryPropagated w = none) := by
  refine ⟨fun _ _ _ _ _ _ _ _ _ _ _ _ _ _ _ _ _ => rfl,
          fun _ _ _ _ _ _ _ _ _ _ _ _ _ _ _ _ _ _ _ => rfl,
          rfl, rfl, fun w => ?_⟩
  cases w <;> rfl

/-- C9: within one _wait_until_stable call, once control has left the
phase-1 approach loop it never returns to it: every transition from a
settlement or finished state stays out of the approach phase. -/
theorem stabilization_one_way (p : WaitParams) (w : WaitState) (now : ℚ)
    (meas : Option ℚ) (h : w.isApproach = false) :
    (waitIter p w now meas).isApproach = false := by
  cases w with
  | approach s1 => simp [WaitState.isApproach] at h
  | settle s2 ss =>
    cases hx : phase2Iter p s2 now ss meas <;>
      simp [waitIter, hx, WaitState.isApproach]
  | finished => rfl

/-- C9 witness: a concrete settlement-phase state stays out of the approach
phase after a transition. -/
theorem stabilization_one_way_witness :
    (WaitState.settle ⟨[], 0, 0⟩ 0).isApproach = false ∧
    (waitIter dwellParams (WaitState.settle ⟨[], 0, 0⟩ 0) 1 none).isApproach
      = false :=
  ⟨rfl, stabilization_one_way dwellParams (WaitState.settle ⟨[], 0, 0⟩ 0) 1
    none rfl⟩

end LynxTC
